import Mathlib

/-
Verification of the warehouse logistics simulation repository.

The aggregation-stage definitions below are shallow embeddings of the
Python/pandas code in the Part 2 analytics notebook and the Part 4 hybrid
strategies notebook. Quantities that the notebooks keep as non-negative
integers are embedded as naturals; float arithmetic on ratios is embedded
as exact rational arithmetic; the float NaN that pandas produces for the
0/0 ratio of an empty group is embedded as the value none of an Option.
-/

namespace Logistics

/-- The two base replenishment strategy labels used across the notebooks. -/
inductive Strategy
| weekly
| jit
deriving DecidableEq, BEq

/-- Product classes A, B and C from the dim_products dimension table. -/
inductive ProductClass
| A
| B
| C
deriving DecidableEq, BEq

/-- Van capacity constant from the Part 2 notebook (also the default of
calculate_outbound_shipments in the Part 4 notebook). -/
def van_capacity : ℕ := 100

/-- Large truck capacity used for weekly scheduled deliveries (Part 2). -/
def large_truck_capacity : ℕ := 1000

/-- Small truck capacity used for JIT deliveries (Part 2). -/
def small_truck_capacity : ℕ := 500

/-- Warehouse storage capacity constant (Part 2). -/
def warehouse_capacity : ℕ := 2200

/-- The shared shipment-count pattern of the notebooks: divide units by a
vehicle capacity as a real number, apply np.ceil, cast to int. -/
def vehicle_shipments (units capacity : ℕ) : ℕ :=
  (⌈(units : ℚ) / (capacity : ℚ)⌉).toNat

/-- The shared utilization pattern of the notebooks:
units / (shipments * capacity) as float division. When the denominator is
zero the float division yields NaN, embedded here as none. -/
def vehicle_utilization (units capacity : ℕ) : Option ℚ :=
  if vehicle_shipments units capacity * capacity = 0 then none
  else some ((units : ℚ) / ((vehicle_shipments units capacity * capacity : ℕ) : ℚ))

/-- calculate_outbound_shipments from the Part 4 notebook; identical to the
outbound_shipments columns of the Part 2 notebook with van_capacity = 100. -/
def calculate_outbound_shipments (orders_fulfilled : ℕ) : ℕ :=
  vehicle_shipments orders_fulfilled van_capacity

/-- The van_utilization columns of the notebooks. -/
def van_utilization (orders_fulfilled : ℕ) : Option ℚ :=
  vehicle_utilization orders_fulfilled van_capacity

/-- Per-strategy truck capacity: the Part 2 notebook uses the large
trucks (1000) for the weekly strategy and the small trucks (500) for JIT. -/
def truck_capacity : Strategy → ℕ
| Strategy.weekly => large_truck_capacity
| Strategy.jit => small_truck_capacity

/-- The inbound_shipments columns of the Part 2 notebook, with the truck
capacity selected by strategy. -/
def calculate_inbound_shipments (strategy : Strategy) (inbound_units : ℕ) : ℕ :=
  vehicle_shipments inbound_units (truck_capacity strategy)

/-- The truck_utilization columns of the Part 2 notebook. -/
def truck_utilization (strategy : Strategy) (inbound_units : ℕ) : Option ℚ :=
  vehicle_utilization inbound_units (truck_capacity strategy)

/-- determine_staff_count from the notebooks:
math.floor(orders / 50) clamped into the band [2, 5]. Python floor of the
true division of two non-negative ints equals natural division. -/
def determine_staff_count (orders_fulfilled : ℕ) : ℕ :=
  min (max (orders_fulfilled / 50) 2) 5

/-- determine_expected_errors from the notebooks. The Python float
constants 0.01 and 0.05 are embedded as the exact rationals they denote in
the source text, and the final int() truncation of a non-negative value is
the floor. -/
def determine_expected_errors (orders staff : ℕ) : ℕ :=
  if orders = 0 ∨ staff = 0 then 0
  else
    let base_error_rate : ℚ := 1/100
    let orders_per_worker : ℚ := (orders : ℚ) / (staff : ℚ)
    let error_rate_multiplier : ℚ := orders_per_worker / 50
    let total_error_rate : ℚ := min (base_error_rate * error_rate_multiplier) (5/100)
    let expected_errors : ℚ := total_error_rate * (orders : ℚ)
    (⌊expected_errors⌋).toNat

/-- One row of the long-format daily_products data consumed by the hybrid
queries and the aggregation stage. Dates and warehouse identifiers are
abstracted to naturals. -/
structure ProductDayRow where
  date : ℕ
  warehouse_id : ℕ
  strategy : Strategy
  inbound_units : ℕ
  actual_outbound : ℕ
  inventory_level : ℕ
  unmet_demand : ℕ

/-- The four summed columns of one aggregated (date, warehouse, strategy)
group, after the rename to orders_fulfilled and missed_sales. -/
structure OperationsAgg where
  inbound_units : ℕ
  orders_fulfilled : ℕ
  inventory_level : ℕ
  missed_sales : ℕ
deriving DecidableEq

/-- Membership of a product-level row in one groupby group keyed by
(date, warehouse_id, strategy). -/
def in_group (date warehouse_id : ℕ) (strategy : Strategy) (r : ProductDayRow) : Bool :=
  r.date == date && r.warehouse_id == warehouse_id && r.strategy == strategy

/-- The groupby/agg step of the notebooks restricted to one group: filter
the rows with the given key and sum the four quantity columns. -/
def agg_group (date warehouse_id : ℕ) (strategy : Strategy)
    (rows : List ProductDayRow) : OperationsAgg :=
  let g := rows.filter (in_group date warehouse_id strategy)
  { inbound_units := (g.map ProductDayRow.inbound_units).sum
    orders_fulfilled := (g.map ProductDayRow.actual_outbound).sum
    inventory_level := (g.map ProductDayRow.inventory_level).sum
    missed_sales := (g.map ProductDayRow.unmet_demand).sum }

/-- Componentwise sum of two aggregates. -/
def agg_add (x y : OperationsAgg) : OperationsAgg :=
  { inbound_units := x.inbound_units + y.inbound_units
    orders_fulfilled := x.orders_fulfilled + y.orders_fulfilled
    inventory_level := x.inventory_level + y.inventory_level
    missed_sales := x.missed_sales + y.missed_sales }

/-- The WHERE clause of hybrid_a_product_query in the Part 4 notebook:
(product_class = C AND strategy = weekly) OR
(product_class IN (A, B) AND strategy = JIT). -/
def hybrid_a_filter (product_class : ProductClass) (strategy : Strategy) : Bool :=
  (product_class == ProductClass.C && strategy == Strategy.weekly) ||
  ((product_class == ProductClass.A || product_class == ProductClass.B) &&
    strategy == Strategy.jit)

/-- The WHERE clause of hybrid_b_product_query in the Part 4 notebook:
(product_class IN (B, C) AND strategy = weekly) OR
(product_class = A AND strategy = JIT). -/
def hybrid_b_filter (product_class : ProductClass) (strategy : Strategy) : Bool :=
  ((product_class == ProductClass.B || product_class == ProductClass.C) &&
    strategy == Strategy.weekly) ||
  (product_class == ProductClass.A && strategy == Strategy.jit)

/-- Modelled from the spec: the Part 1 stock-simulation notebook that holds
the Inventory State Machine is not among the source files, so the state of
one (product, warehouse, strategy) run is modelled from spec section 4.3:
current on-hand inventory plus the ordered sequence of pending
(arrival_day, quantity) orders. On-hand inventory is an integer so that
its non-negativity is a provable invariant rather than a typing artifact;
pending order quantities are naturals per the policy contract of spec
section 4.2 (order_quantity is at least 0). -/
structure InventoryState where
  on_hand_inventory : ℤ
  pending_arrivals : List (ℕ × ℕ)

/-- Modelled from the spec: the SimulationDay row emitted by the missing
Part 1 notebook per spec sections 3 and 4.3 step 5 — realized demand,
inbound units arrived, fulfilled demand (actual_outbound), end-of-day
inventory level, unmet demand and the stockout flag. -/
structure SimulationDay where
  demand : ℤ
  inbound_units : ℤ
  actual_outbound : ℤ
  inventory_level : ℤ
  unmet_demand : ℤ
  stockout_flag : Bool

/-- Modelled from the spec: sum of the pending arrivals due today
(spec section 4.3 step 1). -/
def arrivals_today (day : ℕ) (pending : List (ℕ × ℕ)) : ℕ :=
  ((pending.filter (fun p => p.1 == day)).map (fun p => p.2)).sum

/-- Modelled from the spec: the pending arrivals still outstanding after
the ones due today have been applied (spec section 4.3 step 1). -/
def remaining_after (day : ℕ) (pending : List (ℕ × ℕ)) : List (ℕ × ℕ) :=
  pending.filter (fun p => p.1 != day)

/-- Modelled from the spec: total quantity of outstanding inbound orders,
the outstanding_orders argument of the policy (spec section 4.2). -/
def outstanding_total (pending : List (ℕ × ℕ)) : ℕ :=
  (pending.map (fun p => p.2)).sum

/-- Modelled from the spec: one per-day transition of the Inventory State
Machine of the missing Part 1 notebook, following spec section 4.3 exactly:
1. apply the arrivals due today; 2. take today's demand from the demand
generator; 3. fulfilled = min(demand, on_hand), unmet = demand - fulfilled,
on_hand decreases by fulfilled; 4. consult the policy and, when it orders a
positive quantity, append (today + lead_time, quantity) to the pending
arrivals; 5. emit the SimulationDay row. The policy is the abstraction
decide_order(day_index, current_inventory, outstanding_orders) of spec
section 4.2 with the product parameters already applied. -/
def step_day (policy : ℕ → ℤ → ℤ → ℕ) (lead_time : ℕ) (demand_fn : ℕ → ℕ)
    (day : ℕ) (st : InventoryState) : InventoryState × SimulationDay :=
  let arrived : ℕ := arrivals_today day st.pending_arrivals
  let pending1 : List (ℕ × ℕ) := remaining_after day st.pending_arrivals
  let on_hand : ℤ := st.on_hand_inventory + (arrived : ℤ)
  let demand : ℤ := (demand_fn day : ℤ)
  let fulfilled : ℤ := min demand on_hand
  let unmet : ℤ := demand - fulfilled
  let on_hand_end : ℤ := on_hand - fulfilled
  let order_qty : ℕ := policy day on_hand_end ((outstanding_total pending1 : ℕ) : ℤ)
  let pending2 : List (ℕ × ℕ) :=
    if order_qty = 0 then pending1 else pending1 ++ [(day + lead_time, order_qty)]
  (⟨on_hand_end, pending2⟩,
   ⟨demand, (arrived : ℤ), fulfilled, on_hand_end, unmet, decide (0 < unmet)⟩)

/-- Modelled from the spec: the Simulation Driver loop for one
(product, warehouse, strategy) instance — run the state machine for the
given number of days starting at the given day index, in strictly
increasing day order, collecting the emitted rows (spec sections 4.3
and 4.4). -/
def run_days (policy : ℕ → ℤ → ℤ → ℕ) (lead_time : ℕ) (demand_fn : ℕ → ℕ) :
    ℕ → ℕ → InventoryState → List SimulationDay
| _day, 0, _st => []
| day, Nat.succ n, st =>
    let r := step_day policy lead_time demand_fn day st
    r.2 :: run_days policy lead_time demand_fn (day + 1) n r.1

/-- Modelled from the spec: the threshold-triggered (JIT) policy variant of
spec section 4.2 — order the fixed reorder quantity whenever current
inventory plus outstanding orders is below the reorder point. -/
def threshold_policy (reorder_point reorder_quantity : ℕ) : ℕ → ℤ → ℤ → ℕ :=
  fun _day current_inventory outstanding_orders =>
    if current_inventory + outstanding_orders < (reorder_point : ℤ)
    then reorder_quantity else 0

/-- The per-day consistency checks of claim C1 for one emitted row given
the previous end-of-day inventory level: the inventory recurrence, the two
non-negativity guarantees, and the fulfillment equations. -/
def day_consistent (prev : ℤ) (row : SimulationDay) : Bool :=
  decide (row.inventory_level = prev + row.inbound_units - row.actual_outbound) &&
  decide (0 ≤ row.inventory_level) &&
  decide (0 ≤ row.unmet_demand) &&
  decide (row.actual_outbound = min row.demand (prev + row.inbound_units)) &&
  decide (row.unmet_demand = row.demand - row.actual_outbound)

/-- day_consistent holding along a whole emitted trace, threading each
end-of-day inventory level to the next day. -/
def consistent_trace (prev : ℤ) : List SimulationDay → Bool
| [] => true
| row :: rest => day_consistent prev row && consistent_trace row.inventory_level rest

lemma vehicle_shipments_le_iff (units capacity n : ℕ) (hc : 0 < capacity) :
    vehicle_shipments units capacity ≤ n ↔ units ≤ n * capacity := by
  unfold vehicle_shipments
  rw [Int.toNat_le, Int.ceil_le, div_le_iff₀ (by exact_mod_cast hc)]
  constructor
  · intro h; exact_mod_cast h
  · intro h; exact_mod_cast h

lemma vehicle_shipments_mul_ge (units capacity : ℕ) (hc : 0 < capacity) :
    units ≤ vehicle_shipments units capacity * capacity :=
  (vehicle_shipments_le_iff units capacity _ hc).1 le_rfl

lemma vehicle_shipments_pos (units capacity : ℕ) (hu : 0 < units) (hc : 0 < capacity) :
    0 < vehicle_shipments units capacity := by
  rcases Nat.eq_zero_or_pos (vehicle_shipments units capacity) with h0 | h0
  · have := (vehicle_shipments_le_iff units capacity 0 hc).1 (Nat.le_of_eq h0)
    omega
  · exact h0

lemma vehicle_shipments_eq_ceil_div (units capacity : ℕ) (hc : 0 < capacity) :
    vehicle_shipments units capacity = (units + capacity - 1) / capacity := by
  have hs : units ≤ vehicle_shipments units capacity * capacity :=
    vehicle_shipments_mul_ge units capacity hc
  apply Nat.le_antisymm
  · apply (vehicle_shipments_le_iff units capacity _ hc).2
    have h1 : units + capacity - 1 <
        ((units + capacity - 1) / capacity + 1) * capacity :=
      (Nat.div_lt_iff_lt_mul hc).1 (Nat.lt_succ_self _)
    rw [Nat.succ_mul] at h1
    set m := (units + capacity - 1) / capacity * capacity
    omega
  · apply Nat.le_of_lt_succ
    apply (Nat.div_lt_iff_lt_mul hc).2
    rw [Nat.succ_mul]
    set m := vehicle_shipments units capacity * capacity
    omega

/-- Claim C2: the staff-count operation clamps the rounded-down worker
count orders_fulfilled / 50 into the band [2, 5]; it is always at least 2
and at most 5, and zero fulfilled orders yield exactly 2 workers. -/
theorem C2_staff_count_clamped (orders_fulfilled : ℕ) :
    2 ≤ determine_staff_count orders_fulfilled ∧
    determine_staff_count orders_fulfilled ≤ 5 ∧
    determine_staff_count orders_fulfilled = max 2 (min (orders_fulfilled / 50) 5) ∧
    determine_staff_count 0 = 2 := by
  refine ⟨?_, ?_, ?_, rfl⟩ <;> simp only [determine_staff_count] <;> omega

/-- Claim C8: the Hybrid A query selects exactly the rows pairing classes
A and B with the JIT strategy and class C with the weekly strategy, and
the Hybrid B query selects exactly the rows pairing class A with JIT and
classes B and C with weekly; no other (class, strategy) pairing passes
either filter. -/
theorem C8_hybrid_selection (product_class : ProductClass) (strategy : Strategy) :
    (hybrid_a_filter product_class strategy = true ↔
      (((product_class = ProductClass.A ∨ product_class = ProductClass.B) ∧
          strategy = Strategy.jit) ∨
        (product_class = ProductClass.C ∧ strategy = Strategy.weekly))) ∧
    (hybrid_b_filter product_class strategy = true ↔
      ((product_class = ProductClass.A ∧ strategy = Strategy.jit) ∨
        ((product_class = ProductClass.B ∨ product_class = ProductClass.C) ∧
          strategy = Strategy.weekly))) := by
  cases product_class <;> cases strategy <;> exact ⟨by decide, by decide⟩

/-- Claim C9: the aggregation stage, grouping by (date, warehouse,
strategy) and summing the four quantity columns, is additive over any
split of the product rows into two sublists: aggregating the whole list
equals the componentwise sum of the two sub-aggregates. -/
theorem C9_aggregation_additive (date warehouse_id : ℕ) (strategy : Strategy)
    (rows1 rows2 : List ProductDayRow) :
    agg_group date warehouse_id strategy (rows1 ++ rows2) =
      agg_add (agg_group date warehouse_id strategy rows1)
        (agg_group date warehouse_id strategy rows2) := by
  simp [agg_group, agg_add, List.filter_append]

/-- Claim C6 counterexample: with zero fulfilled orders the emitted
van_utilization is the NaN of the float division 0/0 (embedded as none),
not the defined value 0: the undefined value propagates to the output
instead of being special-cased. -/
theorem C6_counterexample :
    van_utilization 0 = none ∧ van_utilization 0 ≠ some 0 := by
  have h0 : vehicle_shipments 0 van_capacity = 0 := by
    simp [vehicle_shipments]
  constructor
  · rw [van_utilization, vehicle_utilization, h0, if_pos (by omega)]
  · rw [van_utilization, vehicle_utilization, h0, if_pos (by omega)]
    exact Option.noConfusion

/-- Claim C6 amended: when orders_fulfilled = 0 the aggregation stage
produces outbound_shipments = 0, and van_utilization is the undefined
result of the float division 0/0 (NaN, embedded as none), which
propagates to the output; the zero case is not special-cased. -/
theorem C6_zero_orders_nan :
    calculate_outbound_shipments 0 = 0 ∧ van_utilization 0 = none := by
  have h0 : vehicle_shipments 0 van_capacity = 0 := by
    simp [vehicle_shipments]
  refine ⟨h0, ?_⟩
  rw [van_utilization, vehicle_utilization, h0, if_pos (by omega)]

/-- Claim C5: for positive fulfilled orders the outbound shipment count is
the integer ceiling of orders_fulfilled / van_capacity and van utilization
is orders_fulfilled / (outbound_shipments * van_capacity); in particular
223 fulfilled orders with van capacity 100 yield 3 shipments and a
utilization of 223/300. -/
theorem C5_outbound_shipments (orders_fulfilled : ℕ) (h : 0 < orders_fulfilled) :
    calculate_outbound_shipments orders_fulfilled =
      (orders_fulfilled + van_capacity - 1) / van_capacity ∧
    van_utilization orders_fulfilled =
      some ((orders_fulfilled : ℚ) /
        ((calculate_outbound_shipments orders_fulfilled * van_capacity : ℕ) : ℚ)) ∧
    calculate_outbound_shipments 223 = 3 ∧
    van_utilization 223 = some (223 / 300 : ℚ) := by
  have hcap : 0 < van_capacity := by decide
  have hs223 : vehicle_shipments 223 van_capacity = 3 := by
    rw [vehicle_shipments_eq_ceil_div 223 van_capacity hcap]
    decide
  refine ⟨vehicle_shipments_eq_ceil_div _ _ hcap, ?_, hs223, ?_⟩
  · have hspos : 0 < vehicle_shipments orders_fulfilled van_capacity :=
      vehicle_shipments_pos _ _ h hcap
    rw [van_utilization, vehicle_utilization, if_neg (Nat.mul_pos hspos hcap).ne']
    rfl
  · rw [van_utilization, vehicle_utilization, hs223, if_neg (by decide)]
    norm_num [van_capacity]

theorem C5_outbound_shipments_witness :
    calculate_outbound_shipments 223 =
      (223 + van_capacity - 1) / van_capacity ∧
    van_utilization 223 =
      some ((223 : ℕ) /
        ((calculate_outbound_shipments 223 * van_capacity : ℕ) : ℚ)) ∧
    calculate_outbound_shipments 223 = 3 ∧
    van_utilization 223 = some (223 / 300 : ℚ) :=
  C5_outbound_shipments 223 (by decide)

/-- Claim C7: the inbound shipment count is the integer ceiling of
inbound_units over a per-strategy truck capacity — the large trucks
(1000 units) for the weekly scheduled strategy and the small trucks
(500 units) for the JIT strategy — and truck utilization is
inbound_units / (inbound_shipments * truck_capacity). -/
theorem C7_inbound_shipments (strategy : Strategy) (inbound_units : ℕ)
    (h : 0 < inbound_units) :
    truck_capacity Strategy.weekly = 1000 ∧
    truck_capacity Strategy.jit = 500 ∧
    calculate_inbound_shipments strategy inbound_units =
      (inbound_units + truck_capacity strategy - 1) / truck_capacity strategy ∧
    truck_utilization strategy inbound_units =
      some ((inbound_units : ℚ) /
        ((calculate_inbound_shipments strategy inbound_units *
          truck_capacity strategy : ℕ) : ℚ)) := by
  have hcap : 0 < truck_capacity strategy := by
    cases strategy <;> decide
  refine ⟨rfl, rfl, vehicle_shipments_eq_ceil_div _ _ hcap, ?_⟩
  have hspos : 0 < vehicle_shipments inbound_units (truck_capacity strategy) :=
    vehicle_shipments_pos _ _ h hcap
  rw [truck_utilization, vehicle_utilization, if_neg (Nat.mul_pos hspos hcap).ne']
  rfl

theorem C7_inbound_shipments_witness :
    truck_capacity Strategy.weekly = 1000 ∧
    truck_capacity Strategy.jit = 500 ∧
    calculate_inbound_shipments Strategy.weekly 1700 =
      (1700 + truck_capacity Strategy.weekly - 1) / truck_capacity Strategy.weekly ∧
    truck_utilization Strategy.weekly 1700 =
      some ((1700 : ℕ) /
        ((calculate_inbound_shipments Strategy.weekly 1700 *
          truck_capacity Strategy.weekly : ℕ) : ℚ)) :=
  C7_inbound_shipments Strategy.weekly 1700 (by decide)

/-- Claim C10: for positive units and positive vehicle capacity the
shipment count is the least n with n * capacity at least the units, so
the utilization ratio lies in the half-open interval (0, 1], reaching 1
exactly when the capacity divides the units. -/
theorem C10_utilization_bounds (units capacity : ℕ)
    (hu : 0 < units) (hc : 0 < capacity) :
    units ≤ vehicle_shipments units capacity * capacity ∧
    (∀ n : ℕ, units ≤ n * capacity → vehicle_shipments units capacity ≤ n) ∧
    vehicle_utilization units capacity =
      some ((units : ℚ) / ((vehicle_shipments units capacity * capacity : ℕ) : ℚ)) ∧
    0 < (units : ℚ) / ((vehicle_shipments units capacity * capacity : ℕ) : ℚ) ∧
    (units : ℚ) / ((vehicle_shipments units capacity * capacity : ℕ) : ℚ) ≤ 1 ∧
    ((units : ℚ) / ((vehicle_shipments units capacity * capacity : ℕ) : ℚ) = 1 ↔
      capacity ∣ units) := by
  have hge : units ≤ vehicle_shipments units capacity * capacity :=
    vehicle_shipments_mul_ge units capacity hc
  have hspos : 0 < vehicle_shipments units capacity :=
    vehicle_shipments_pos _ _ hu hc
  have hden : 0 < vehicle_shipments units capacity * capacity := Nat.mul_pos hspos hc
  have hdenq : (0 : ℚ) < ((vehicle_shipments units capacity * capacity : ℕ) : ℚ) := by
    exact_mod_cast hden
  refine ⟨hge, fun n hn => (vehicle_shipments_le_iff units capacity n hc).2 hn, ?_, ?_, ?_, ?_⟩
  · rw [vehicle_utilization, if_neg hden.ne']
  · exact div_pos (by exact_mod_cast hu) hdenq
  · exact (div_le_one hdenq).2 (by exact_mod_cast hge)
  · rw [div_eq_one_iff_eq hdenq.ne']
    constructor
    · intro heq
      have hueq : units = vehicle_shipments units capacity * capacity := by
        exact_mod_cast heq
      exact ⟨vehicle_shipments units capacity, hueq.trans (Nat.mul_comm _ _)⟩
    · rintro ⟨k, hk⟩
      rw [Nat.mul_comm] at hk
      have hle : vehicle_shipments units capacity ≤ k :=
        (vehicle_shipments_le_iff units capacity k hc).2 (le_of_eq hk)
      have hmul : vehicle_shipments units capacity * capacity ≤ k * capacity :=
        Nat.mul_le_mul_right capacity hle
      have hueq : vehicle_shipments units capacity * capacity = units := by omega
      rw [hueq]

theorem C10_utilization_bounds_witness :
    223 ≤ vehicle_shipments 223 100 * 100 ∧
    (∀ n : ℕ, 223 ≤ n * 100 → vehicle_shipments 223 100 ≤ n) ∧
    vehicle_utilization 223 100 =
      some (((223 : ℕ) : ℚ) / ((vehicle_shipments 223 100 * 100 : ℕ) : ℚ)) ∧
    0 < ((223 : ℕ) : ℚ) / ((vehicle_shipments 223 100 * 100 : ℕ) : ℚ) ∧
    ((223 : ℕ) : ℚ) / ((vehicle_shipments 223 100 * 100 : ℕ) : ℚ) ≤ 1 ∧
    (((223 : ℕ) : ℚ) / ((vehicle_shipments 223 100 * 100 : ℕ) : ℚ) = 1 ↔
      100 ∣ 223) :=
  C10_utilization_bounds 223 100 (by decide) (by decide)

/-- Claim C3: the expected-errors operation returns 0 when either orders
or staff is zero, and otherwise the floor of
min(0.01 * (orders / staff) / 50, 0.05) * orders, so the effective error
rate is capped at 5 percent of the fulfilled orders. -/
theorem C3_expected_errors (orders staff : ℕ) :
    determine_expected_errors 0 staff = 0 ∧
    determine_expected_errors orders 0 = 0 ∧
    (0 < orders → 0 < staff →
      determine_expected_errors orders staff =
        (⌊min ((1/100 : ℚ) * ((orders : ℚ) / (staff : ℚ) / 50)) (5/100) *
          (orders : ℚ)⌋).toNat ∧
      (determine_expected_errors orders staff : ℚ) ≤ (5/100) * (orders : ℚ)) := by
  refine ⟨by simp [determine_expected_errors], by simp [determine_expected_errors], ?_⟩
  intro ho hs
  have heq : determine_expected_errors orders staff =
      (⌊min ((1/100 : ℚ) * ((orders : ℚ) / (staff : ℚ) / 50)) (5/100) *
        (orders : ℚ)⌋).toNat := by
    rw [determine_expected_errors, if_neg (by omega)]
  refine ⟨heq, ?_⟩
  set x : ℚ := min ((1/100 : ℚ) * ((orders : ℚ) / (staff : ℚ) / 50)) (5/100) *
    (orders : ℚ) with hx
  have hx0 : 0 ≤ x := by
    apply mul_nonneg
    · exact le_min (by positivity) (by norm_num)
    · positivity
  have hfl : ((⌊x⌋.toNat : ℤ) : ℚ) = ((⌊x⌋ : ℤ) : ℚ) := by
    rw [Int.toNat_of_nonneg (Int.floor_nonneg.2 hx0)]
  have hle1 : ((⌊x⌋ : ℤ) : ℚ) ≤ x := Int.floor_le x
  have hle2 : x ≤ (5/100) * (orders : ℚ) :=
    mul_le_mul_of_nonneg_right (min_le_right _ _) (by positivity)
  rw [heq]
  calc ((⌊x⌋.toNat : ℕ) : ℚ) = ((⌊x⌋ : ℤ) : ℚ) := by exact_mod_cast hfl
  _ ≤ x := hle1
  _ ≤ (5/100) * (orders : ℚ) := hle2

theorem C3_expected_errors_witness :
    determine_expected_errors 0 4 = 0 ∧
    determine_expected_errors 223 0 = 0 ∧
    determine_expected_errors 223 4 =
      (⌊min ((1/100 : ℚ) * (((223 : ℕ) : ℚ) / ((4 : ℕ) : ℚ) / 50)) (5/100) *
        ((223 : ℕ) : ℚ)⌋).toNat ∧
    (determine_expected_errors 223 4 : ℚ) ≤ (5/100) * ((223 : ℕ) : ℚ) :=
  ⟨(C3_expected_errors 0 4).1, (C3_expected_errors 223 0).2.1,
    ((C3_expected_errors 223 4).2.2 (by decide) (by decide)).1,
    ((C3_expected_errors 223 4).2.2 (by decide) (by decide)).2⟩

/-- Claim C4: for a fixed positive staff count the expected-errors
operation is monotone non-decreasing in the number of fulfilled orders. -/
theorem C4_expected_errors_monotone (staff a b : ℕ) (hs : 0 < staff)
    (hab : a ≤ b) :
    determine_expected_errors a staff ≤ determine_expected_errors b staff := by
  rcases Nat.eq_zero_or_pos a with ha | ha
  · subst ha
    simp [determine_expected_errors]
  · have hb : 0 < b := lt_of_lt_of_le ha hab
    rw [determine_expected_errors, determine_expected_errors,
      if_neg (by omega), if_neg (by omega)]
    apply Int.toNat_le_toNat
    apply Int.floor_le_floor
    have habq : (a : ℚ) ≤ (b : ℚ) := by exact_mod_cast hab
    have hm : (1/100 : ℚ) * ((a : ℚ) / (staff : ℚ) / 50) ≤
        (1/100 : ℚ) * ((b : ℚ) / (staff : ℚ) / 50) := by
      have hsq : (0 : ℚ) < (staff : ℚ) := by exact_mod_cast hs
      gcongr
    exact mul_le_mul (min_le_min hm le_rfl) habq (by positivity)
      (le_min (by positivity) (by norm_num))

theorem C4_expected_errors_monotone_witness :
    determine_expected_errors 100 4 ≤ determine_expected_errors 223 4 :=
  C4_expected_errors_monotone 4 100 223 (by decide) (by decide)

lemma step_day_row_consistent (policy : ℕ → ℤ → ℤ → ℕ) (lead_time : ℕ)
    (demand_fn : ℕ → ℕ) (day : ℕ) (st : InventoryState) :
    day_consistent st.on_hand_inventory
      (step_day policy lead_time demand_fn day st).2 = true := by
  simp only [step_day, day_consistent, Bool.and_eq_true, decide_eq_true_eq, min_def,
    and_true, true_and]
  split_ifs <;> omega

lemma step_day_state_nonneg (policy : ℕ → ℤ → ℤ → ℕ) (lead_time : ℕ)
    (demand_fn : ℕ → ℕ) (day : ℕ) (st : InventoryState) :
    0 ≤ (step_day policy lead_time demand_fn day st).1.on_hand_inventory := by
  simp only [step_day]
  omega

/-- Claim C1: along every run of the Inventory State Machine every emitted
row satisfies inventory_today = inventory_yesterday + arrivals_today -
fulfilled_today, the end-of-day inventory level and the unmet demand are
non-negative, fulfilled equals min(demand, on-hand after arrivals) and
unmet equals demand - fulfilled, provided the starting inventory is
non-negative. -/
theorem C1_state_machine_consistent (policy : ℕ → ℤ → ℤ → ℕ) (lead_time : ℕ)
    (demand_fn : ℕ → ℕ) (day num_days : ℕ) (st : InventoryState)
    (h : 0 ≤ st.on_hand_inventory) :
    consistent_trace st.on_hand_inventory
      (run_days policy lead_time demand_fn day num_days st) = true := by
  induction num_days generalizing day st with
  | zero => rfl
  | succ n ih =>
      rw [run_days, consistent_trace, Bool.and_eq_true]
      refine ⟨step_day_row_consistent policy lead_time demand_fn day st, ?_⟩
      have h2 : 0 ≤ (step_day policy lead_time demand_fn day st).1.on_hand_inventory :=
        step_day_state_nonneg policy lead_time demand_fn day st
      exact ih (day + 1) (step_day policy lead_time demand_fn day st).1 h2

theorem C1_state_machine_consistent_witness :
    consistent_trace (InventoryState.mk 200 []).on_hand_inventory
      (run_days (threshold_policy 50 200) 2 (fun _ => 30) 0 14
        (InventoryState.mk 200 [])) = true :=
  C1_state_machine_consistent (threshold_policy 50 200) 2 (fun _ => 30) 0 14
    (InventoryState.mk 200 []) (by decide)

end Logistics
